import Mathlib

/-!
# Verification of the pixelpet repository's audio and UI subsystems

Shallow embedding of the repository's JavaScript sources:

* `src/js/audio/audio-settings.js` — the `AudioSettings` class (volume model);
* `src/unnamed/part_000` — the `SoundMappingSystem` class (action → sound mapping);
* `src/unnamed/part_001` — `SoundFactory`, `AudioEventBus` and `AudioSystem`
  (sound synthesis dispatch and the concurrency cap on active sounds);
* `src/js/app.js` — `Utils`, `SliderController`, `UIController` and
  `ProductionController` (slider / reset / tracking-number UI logic).

JS numbers are modelled as `ℚ` (the code only does exact decimal arithmetic),
integer UI values as `Nat`/`Int`, JS `Map`s as association lists in insertion
order, JS `Set`s as `Finset`, and the DOM as explicit record fields.  Browser
effects (fetch results, audio-context availability, generated source nodes)
enter as explicit parameters of each operation.
-/

/-- JS function-style update of a total map, used to model writes to one of a
fixed family of DOM elements or object fields. -/
def updF {α : Type} {β : Type} [DecidableEq α] (f : α → β) (a : α) (b : β) : α → β :=
  fun x => if x = a then b else f x

/-- JS string-or-default `x || d` for an optional string: `undefined` and the
empty string are falsy and select the default. -/
def jsOrStr (x : Option String) (d : String) : String :=
  match x with
  | none => d
  | some s => if s = "" then d else s

/-- JS `m.get(k) || null` on a string-valued map: a missing key and an empty
string both collapse to `null`. -/
def jsOrNull (x : Option String) : Option String :=
  match x with
  | none => none
  | some s => if s = "" then none else some s

/-- JS `String.prototype.includes` on char lists: `containsSub hay sub` is
true when `sub` occurs contiguously inside `hay`. -/
def containsSub (hay sub : List Char) : Bool :=
  if sub.isPrefixOf hay then true
  else
    match hay with
    | [] => false
    | _ :: t => containsSub t sub

/-- JS `s.includes(sub)` on strings. -/
def jsIncludes (s sub : String) : Bool :=
  containsSub s.toList sub.toList

/-! ## `AudioSettings` (src/js/audio/audio-settings.js)

Only the fields that the claims exercise are carried: the `global` block, the
`categories` block, and the `performance`/`debug` reads used by `AudioSystem`
are represented by the concrete default values the code reads. -/

/-- One entry of `settings.categories` (audio-settings.js lines 21–27). -/
structure CatSetting where
  volume : ℚ
  enabled : Bool
deriving Repr, DecidableEq

/-- The `settings.global` block (audio-settings.js lines 13–17). -/
structure GlobalSetting where
  enabled : Bool
  masterVolume : ℚ
  mute : Bool
deriving Repr, DecidableEq

/-- The mutable state of the `AudioSettings` singleton: the `global` block and
the category table (an insertion-ordered map, modelled as an association
list). -/
structure AudioSettingsState where
  global : GlobalSetting
  categories : List (String × CatSetting)
deriving Repr, DecidableEq

namespace AudioSettingsState

/-- The constructor's default settings (audio-settings.js lines 11–72),
restricted to the blocks the claims touch. -/
def defaults : AudioSettingsState :=
  { global := { enabled := true, masterVolume := 0.8, mute := false }
    categories :=
      [ ("ui", { volume := 0.7, enabled := true })
      , ("game", { volume := 0.8, enabled := true })
      , ("music", { volume := 0.6, enabled := true })
      , ("environment", { volume := 0.5, enabled := true })
      , ("production", { volume := 0.9, enabled := true })
      , ("customer", { volume := 0.7, enabled := true }) ] }

/-- JS `Math.max(0, Math.min(1, v))`. -/
def clamp01 (v : ℚ) : ℚ := max 0 (min 1 v)

/-- `AudioSettings.getVolume(category)` (audio-settings.js lines 165–181):
returns 0 when globally disabled or muted, 0 when the requested category
exists and is disabled, and otherwise the clamped product of the master
volume with the category volume (the master volume alone when no category is
given or the category is unknown). -/
def getVolume (s : AudioSettingsState) (category : Option String) : ℚ :=
  if !s.global.enabled || s.global.mute then 0
  else
    let volume := s.global.masterVolume
    match category.bind (fun c => s.categories.lookup c) with
    | some cs =>
        if !cs.enabled then 0
        else clamp01 (volume * cs.volume)
    | none => clamp01 volume

/-- Update the entry of one category key in the table, leaving other entries
and unknown keys untouched. -/
def updateCat (l : List (String × CatSetting)) (c : String)
    (f : CatSetting → CatSetting) : List (String × CatSetting) :=
  l.map (fun p => if p.1 = c then (p.1, f p.2) else p)

/-- `AudioSettings.setMasterVolume(volume)` (lines 187–191): clamps into
`[0, 1]` before storing.  Persistence to local storage carries no state the
claims observe and is omitted. -/
def setMasterVolume (v : ℚ) (s : AudioSettingsState) : AudioSettingsState :=
  { s with global := { s.global with masterVolume := clamp01 v } }

/-- `AudioSettings.setCategoryVolume(category, volume)` (lines 198–204): only
an existing category is updated, and the volume is clamped before storing. -/
def setCategoryVolume (c : String) (v : ℚ) (s : AudioSettingsState) :
    AudioSettingsState :=
  if (s.categories.lookup c).isSome then
    { s with categories :=
        updateCat s.categories c (fun cs => { cs with volume := clamp01 v }) }
  else s

/-- `AudioSettings.setEnabled(enabled)` (lines 210–214). -/
def setEnabled (b : Bool) (s : AudioSettingsState) : AudioSettingsState :=
  { s with global := { s.global with enabled := b } }

/-- `AudioSettings.setMute(mute)` (lines 220–224). -/
def setMute (b : Bool) (s : AudioSettingsState) : AudioSettingsState :=
  { s with global := { s.global with mute := b } }

/-- Settings states reachable from the constructor defaults through the four
mutators named by claim C9. -/
inductive Reachable : AudioSettingsState → Prop
  | default : Reachable defaults
  | master (v : ℚ) {s} : Reachable s → Reachable (setMasterVolume v s)
  | category (c : String) (v : ℚ) {s} :
      Reachable s → Reachable (setCategoryVolume c v s)
  | mute (b : Bool) {s} : Reachable s → Reachable (setMute b s)
  | enabled (b : Bool) {s} : Reachable s → Reachable (setEnabled b s)

end AudioSettingsState

/-! ## `SoundMappingSystem` (src/unnamed/part_000)

The `data` object handed to conditional mappings is an arbitrary JS object;
the mapping state is therefore parametric in the data type `α`.  For concrete
instances (the default configuration and the flattened external rules) the
fields the conditions read are collected in `GameData`. -/

/-- The concrete shape of event data read by the repository's condition
functions: `data.delta`, `data.quality`, `data.mood`, `data.time_of_day`. -/
structure GameData where
  delta : Int
  quality : Int
  mood : String
  time_of_day : String
deriving Repr, DecidableEq

/-- One value of the `conditionalMappings` map: an optional condition function
and a sound name (part_000 lines 264–269 show the stored shape). -/
structure CondMapping (α : Type) where
  condition : Option (α → Bool)
  sound : String

/-- The mutable state of a `SoundMappingSystem` instance (part_000 lines
10–14): two insertion-ordered maps and the `isInitialized` flag. -/
structure SMSState (α : Type) where
  mappings : List (String × String)
  conditionalMappings : List (String × CondMapping α)
  isInitialized : Bool

namespace SMSState

/-- The freshly constructed system: empty maps, not initialized. -/
def ctor (α : Type) : SMSState α :=
  { mappings := [], conditionalMappings := [], isInitialized := false }

/-- Whether a conditional-mapping entry fires on `data`:
`mapping.condition && mapping.condition(data)` (part_000 line 240). -/
def condHolds {α : Type} (data : α) (p : String × CondMapping α) : Bool :=
  match p.2.condition with
  | some c => c data
  | none => false

/-- `SoundMappingSystem.getSoundForAction(action, data)` (part_000 lines
232–247): `null` when uninitialized; otherwise the sound of the first
conditional mapping whose condition holds on `data` (scanned in insertion
order, independent of `action`), and only failing that the basic mapping for
`action` (`|| null` collapses a missing or empty entry to `null`). -/
def getSoundForAction {α : Type} (s : SMSState α) (action : String) (data : α) :
    Option String :=
  if !s.isInitialized then none
  else
    match s.conditionalMappings.find? (condHolds data) with
    | some p => some p.2.sound
    | none => jsOrNull (s.mappings.lookup action)

/-- `SoundMappingSystem.loadConfig(config)` (part_000 lines 47–66): clears
both maps and installs the entries of the given configuration object. -/
def loadConfig {α : Type} (s : SMSState α)
    (mappings : List (String × String))
    (conditional_mappings : List (String × CondMapping α)) : SMSState α :=
  { s with mappings := mappings, conditionalMappings := conditional_mappings }

/-- `action` entry of a nested mappings category: `{ sound_name: ... }`. -/
structure ActionCfg where
  sound_name : String
deriving Repr, DecidableEq

/-- One category of a nested external mappings file: `{ actions: {...} }`.
A category without an `actions` key is modelled by `actions := none`. -/
structure CategoryCfg where
  actions : Option (List (String × ActionCfg))
deriving Repr, DecidableEq

/-- One entry of the external `conditional_mappings.rules` array (part_000
lines 131–155): a condition string and a mappings object. -/
structure RuleCfg where
  condition : String
  mappings : List (String × ActionCfg)
deriving Repr, DecidableEq

/-- `SoundMappingSystem.flattenMappings(mappings)` (part_000 lines 106–120):
each category contributes `category_action ↦ sound_name` entries. -/
def flattenMappings (ms : List (String × CategoryCfg)) :
    List (String × String) :=
  ms.flatMap (fun p =>
    match p.2.actions with
    | some acts =>
        acts.map (fun a => (p.1 ++ "_" ++ a.1, a.2.sound_name))
    | none => [])

/-- JS `str.replace(/[^a-zA-Z0-9]/g, '_')` (part_000 line 135). -/
def sanitizeCondName (s : String) : String :=
  String.mk (s.toList.map (fun c =>
    if c.isAlpha || c.isDigit then c else '_'))

/-- The condition closure built for one external rule (part_000 lines
139–151): substring tests on the rule's condition string, evaluated against
`data` at call time. -/
def ruleCondition (r : RuleCfg) : GameData → Bool :=
  fun data =>
    if jsIncludes r.condition "time_of_day" then data.time_of_day == "night"
    else if jsIncludes r.condition "production_quality" then
      decide (90 ≤ data.quality)
    else if jsIncludes r.condition "customer_mood" then data.mood == "happy"
    else false

/-- The sound chosen for one external rule (part_000 line 152):
`Object.values(rule.mappings)[0]?.sound_name || 'click_sound'`. -/
def ruleSound (r : RuleCfg) : String :=
  match r.mappings.head? with
  | some a => jsOrStr (some a.2.sound_name) "click_sound"
  | none => "click_sound"

/-- `SoundMappingSystem.flattenConditionalMappings` on the external rules
array (part_000 lines 131–155); rules missing a condition or mappings object
do not occur in this repository's configuration shapes and are represented by
the same record type with their fields present. -/
def flattenConditionalRules (rules : List RuleCfg) :
    List (String × CondMapping GameData) :=
  rules.map (fun r =>
    ("rule_" ++ sanitizeCondName r.condition,
      { condition := some (ruleCondition r), sound := ruleSound r }))

/-- The parsed JSON of an external mappings file, in the two shapes
`loadConfigFromFile` distinguishes (part_000 lines 82–94): a full structure
with a `mappings` key (and optionally `conditional_mappings.rules`), or a
direct flat `action ↦ sound` object. -/
inductive MappingFile
  | nested (mappings : List (String × CategoryCfg)) (rules : List RuleCfg)
  | flat (mappings : List (String × String))

/-- `SoundMappingSystem.loadConfigFromFile(configPath)` (part_000 lines
72–99).  The browser fetch+parse outcome is the `fetched` parameter (`none`
models a failed fetch or unparsable body).  On failure the catch block logs
and RETHROWS (`throw error`, line 97), modelled as `Except.error`. -/
def loadConfigFromFile (s : SMSState GameData) (fetched : Option MappingFile) :
    Except Unit (SMSState GameData) :=
  match fetched with
  | none => .error ()
  | some (.nested ms rules) =>
      .ok (loadConfig s (flattenMappings ms) (flattenConditionalRules rules))
  | some (.flat ms) => .ok (loadConfig s ms [])

/-- The default basic mappings of `loadDefaultConfig` (part_000 lines
170–201). -/
def defaultMappings : List (String × String) :=
  [ ("button_click", "click_sound")
  , ("button_hover", "hover_sound")
  , ("slider_adjusted", "slider_move")
  , ("slider_released", "slider_release")
  , ("ui_emoji_select", "click_sound")
  , ("ui_slider_adjust", "slider_move")
  , ("ui_service_select", "click_sound")
  , ("ui_system_reset", "click_sound")
  , ("ui_product_share", "click_sound")
  , ("ui_product_download", "click_sound")
  , ("money_changed", "coin_sound")
  , ("level_up", "level_up_sound")
  , ("production_started", "machine_start")
  , ("production_completed", "success_sound")
  , ("production_production_start", "machine_start")
  , ("production_step_recipe", "click_sound")
  , ("production_step_production", "click_sound")
  , ("production_step_quality", "click_sound")
  , ("production_step_packaging", "click_sound")
  , ("production_step_logistics", "click_sound")
  , ("production_step_complete", "success_sound")
  , ("production_production_complete", "production_complete")
  , ("background_music", "ambient_music")
  , ("ui_transition", "transition_sound") ]

/-- `money_increased` default conditional mapping (part_000 lines 204–207). -/
def moneyIncreasedMapping : CondMapping GameData :=
  { condition := some (fun data => decide (0 < data.delta)), sound := "coin_gain" }

/-- `money_decreased` default conditional mapping (part_000 lines 208–211). -/
def moneyDecreasedMapping : CondMapping GameData :=
  { condition := some (fun data => decide (data.delta < 0)), sound := "coin_loss" }

/-- `high_quality` default conditional mapping (part_000 lines 212–215). -/
def highQualityMapping : CondMapping GameData :=
  { condition := some (fun data => decide (80 < data.quality))
    sound := "high_quality_sound" }

/-- `low_quality` default conditional mapping (part_000 lines 216–219). -/
def lowQualityMapping : CondMapping GameData :=
  { condition := some (fun data => decide (data.quality < 30))
    sound := "low_quality_sound" }

/-- The default conditional mappings of `loadDefaultConfig` (part_000 lines
203–220), in insertion order. -/
def defaultConditionalMappings : List (String × CondMapping GameData) :=
  [ ("money_increased", moneyIncreasedMapping)
  , ("money_decreased", moneyDecreasedMapping)
  , ("high_quality", highQualityMapping)
  , ("low_quality", lowQualityMapping) ]

/-- `SoundMappingSystem.loadDefaultConfig()` (part_000 lines 169–224). -/
def loadDefaultConfig (s : SMSState GameData) : SMSState GameData :=
  loadConfig s defaultMappings defaultConditionalMappings

/-- The argument of `SoundMappingSystem.initialize(config)`: a config-file
path (whose fetch outcome is attached), a direct config object, or nothing. -/
inductive SMSInitArg
  | path (fetched : Option MappingFile)
  | obj (mappings : List (String × String))
      (conditional_mappings : List (String × CondMapping GameData))
  | none

/-- `SoundMappingSystem.initialize(config)` (part_000 lines 21–41): on
success sets `isInitialized` and returns `true`; when `loadConfigFromFile`
throws, the catch block returns `false` WITHOUT touching the maps or the
`isInitialized` flag — no default configuration is loaded on that path. -/
def initSystem (s : SMSState GameData) (config : SMSInitArg) :
    Bool × SMSState GameData :=
  match config with
  | .path fetched =>
      match loadConfigFromFile s fetched with
      | .error _ => (false, s)
      | .ok s' => (true, { s' with isInitialized := true })
  | .obj ms cms => (true, { loadConfig s ms cms with isInitialized := true })
  | .none => (true, { loadDefaultConfig s with isInitialized := true })

end SMSState

/-! ## `SoundFactory` (src/unnamed/part_001 lines 9–866)

Web Audio nodes are modelled by the `Source` datatype recording exactly the
parameters each generator writes into the audio graph; `AudioBuffer`s in the
buffer pool are opaque tokens.  A thrown JS exception is `Except.error`. -/

/-- One element of a `sequence` parameter array (part_001 lines 177–180). -/
structure SeqItem where
  type : String
  frequency : ℚ
  duration : ℚ
  volume : ℚ
deriving Repr, DecidableEq

/-- One element of a `chords` parameter array (part_001 line 189). -/
structure ChordItem where
  notes : List ℚ
  duration : ℚ
  waveType : String
deriving Repr, DecidableEq

/-- One element of a `stages` parameter array (part_001 lines 211–213). -/
structure StageItem where
  frequency : ℚ
  duration : ℚ
  volume : ℚ
  waveType : String
deriving Repr, DecidableEq

/-- The `modulation` parameter object (part_001 lines 251–255). -/
structure ModItem where
  type : String
  frequency : ℚ
  depth : ℚ
deriving Repr, DecidableEq

/-- A `params` bundle of a sound implementation: every field read anywhere in
`SoundFactory`'s generators, each optional (`none` models an absent JS
property, lists default to absent-as-empty). -/
structure Params where
  frequency : Option ℚ := none
  duration : Option ℚ := none
  waveType : Option String := none
  type : Option String := none
  volume : Option ℚ := none
  filterType : Option String := none
  filterFrequency : Option ℚ := none
  startFrequency : Option ℚ := none
  endFrequency : Option ℚ := none
  sweepType : Option String := none
  pulseCount : Option Nat := none
  pulseDuration : Option ℚ := none
  gapDuration : Option ℚ := none
  pulseWidth : Option ℚ := none
  sequence : List SeqItem := []
  chords : List ChordItem := []
  stages : List StageItem := []
  modulation : Option ModItem := none
deriving Repr, DecidableEq

/-- A sound implementation entry of `SoundFactory.implementations`: the
fields the factory reads (`type`, `generator`, `params`, and the file-source
fields of part_001 lines 643–716). -/
structure Impl where
  type : String
  generator : Option String := none
  params : Option Params := none
  file : Option String := none
  base_path : Option String := none
  loop : Bool := false
  volume : Option ℚ := none
  name : Option String := none
deriving Repr, DecidableEq

/-- An opaque decoded `AudioBuffer`. -/
structure Buffer where
  id : Nat
deriving Repr, DecidableEq

/-- The audio node returned by a generator, recording the parameters the
code writes into the Web Audio graph. -/
inductive Source
  /-- `generateSimpleTone` oscillator (part_001 lines 357–387). -/
  | tone (wave : String) (frequency duration volume : ℚ)
  /-- `generateNoiseBurst` buffer source (part_001 lines 394–444). -/
  | noise (noiseType : String) (duration volume : ℚ)
      (filter : Option (String × ℚ))
  /-- `generateFrequencySweep` oscillator (part_001 lines 549–588). -/
  | sweep (wave : String) (startFrequency endFrequency duration volume : ℚ)
      (down : Bool)
  /-- `generatePulseSequence` oscillator (part_001 lines 595–635). -/
  | pulses (wave : String) (frequency : ℚ) (pulseCount : Nat)
      (pulseDuration gapDuration volume : ℚ)
  /-- `generateSilentSound` silent buffer source (part_001 lines 740–752). -/
  | silent (duration : ℚ)
  /-- `createSourceFromBuffer` on a pooled buffer (part_001 lines 775–781). -/
  | fromBuffer (b : Buffer)
  /-- a file-backed source built by `generateFromFile` (part_001 lines
  643–716): decoded buffer, effective volume, loop flag. -/
  | fileSource (b : Buffer) (volume : ℚ) (loop : Bool)
deriving Repr, DecidableEq

/-- The JS exceptions `SoundFactory` can throw. -/
inductive SFError
  /-- part_001 line 284: factory not initialized. -/
  | notInitialized
  /-- part_001 line 312: unsupported implementation `type`. -/
  | unsupportedType (t : String)
  /-- part_001 line 348: unsupported `generator` name. -/
  | unsupportedGenerator (g : String)
  /-- calling `.replace` on an `undefined` generator field (part_001 line
  326 when the implementation has no `generator`). -/
  | typeError
deriving Repr, DecidableEq

/-- The mutable state of a `SoundFactory` instance (part_001 lines 10–15).
The buffer pool is keyed by `getCacheKey`'s `soundName_JSON.stringify(params)`
string, modelled by the pair (name, params) — `JSON.stringify` is injective
on the parameter shapes this repository uses. -/
structure SFState where
  implementations : List (String × Impl)
  audioBufferPool : List ((String × Option Params) × Buffer)
  isInitialized : Bool
deriving Repr, DecidableEq

namespace SFState

/-- The freshly constructed factory. -/
def ctor : SFState :=
  { implementations := [], audioBufferPool := [], isInitialized := false }

/-- `getCacheKey(soundName, params)` (part_001 lines 789–791). -/
def getCacheKey (soundName : String) (params : Option Params) :
    String × Option Params :=
  (soundName, params)

/-- `generateSimpleTone(params)` (part_001 lines 357–387): defaults
frequency 800, duration 0.05, volume 0.3; waveform `type || waveType ||
'sine'`. -/
def generateSimpleTone (params : Params) : Source :=
  let frequency := params.frequency.getD 800
  let duration := params.duration.getD 0.05
  let volume := params.volume.getD 0.3
  .tone (jsOrStr params.type (jsOrStr params.waveType "sine"))
    frequency duration volume

/-- `generateNoiseBurst(params)` (part_001 lines 394–444): defaults duration
0.02, volume 0.15, noise type `'white'`; a biquad filter is attached only
when both `filterType` and `filterFrequency` are present (and truthy). -/
def generateNoiseBurst (params : Params) : Source :=
  let duration := params.duration.getD 0.02
  let volume := params.volume.getD 0.15
  let noiseType := jsOrStr params.type "white"
  let filter :=
    match params.filterType, params.filterFrequency with
    | some ft, some ff => if ft != "" && ff != 0 then some (ft, ff) else none
    | _, _ => none
  .noise noiseType duration volume filter

/-- `generateComplexSequence(params)` (part_001 lines 474–482): the
simplified implementation ignores its params and emits a fixed tone. -/
def generateComplexSequence (_params : Params) : Source :=
  generateSimpleTone
    { frequency := some 800, duration := some 0.15
      waveType := some "sine", volume := some 0.4 }

/-- `generateEnvelopeSequence(params)` (part_001 lines 489–497). -/
def generateEnvelopeSequence (_params : Params) : Source :=
  generateSimpleTone
    { frequency := some 600, duration := some 0.3
      waveType := some "sine", volume := some 0.5 }

/-- `generateChordSequence(params)` (part_001 lines 504–512). -/
def generateChordSequence (_params : Params) : Source :=
  generateSimpleTone
    { frequency := some 500, duration := some 0.25
      waveType := some "sine", volume := some 0.6 }

/-- `generatePulseWave(params)` (part_001 lines 519–527). -/
def generatePulseWave (_params : Params) : Source :=
  generateSimpleTone
    { frequency := some 200, duration := some 0.2
      waveType := some "square", volume := some 0.4 }

/-- `generateFilteredNoise(params)` (part_001 lines 534–542). -/
def generateFilteredNoise (_params : Params) : Source :=
  generateNoiseBurst
    { duration := some 2.0, volume := some 0.1
      filterType := some "lowpass", filterFrequency := some 500 }

/-- `generateFrequencySweep(params)` (part_001 lines 549–588). -/
def generateFrequencySweep (params : Params) : Source :=
  let startFrequency := params.startFrequency.getD 800
  let endFrequency := params.endFrequency.getD 1200
  let duration := params.duration.getD 0.15
  let wave := jsOrStr params.type "sine"
  let volume := params.volume.getD 0.4
  let sweepType := jsOrStr params.sweepType "up"
  .sweep wave startFrequency endFrequency duration volume
    (sweepType == "down")

/-- `generatePulseSequence(params)` (part_001 lines 595–635). -/
def generatePulseSequence (params : Params) : Source :=
  let frequency := params.frequency.getD 440
  let pulseCount := params.pulseCount.getD 3
  let pulseDuration := params.pulseDuration.getD 0.08
  let gapDuration := params.gapDuration.getD 0.06
  let wave := jsOrStr params.type "sine"
  let volume := params.volume.getD 0.5
  .pulses wave frequency pulseCount pulseDuration gapDuration volume

/-- `generateSilentSound(duration)` (part_001 lines 740–752). -/
def generateSilentSound (duration : ℚ) : Source :=
  .silent duration

/-- `generateFromThirdParty` (part_001 lines 725–733). -/
def generateFromThirdParty (_impl : Impl) : Source :=
  generateSimpleTone
    { frequency := some 660, duration := some 0.3
      waveType := some "sine", volume := some 0.5 }

/-- `generateCustom` (part_001 lines 760–768). -/
def generateCustom (_impl : Impl) : Source :=
  generateSimpleTone
    { frequency := some 880, duration := some 0.4
      waveType := some "sine", volume := some 0.5 }

/-- JS `generator.replace('-', '_')` — a string pattern replaces only the
FIRST occurrence (part_001 line 326). -/
def replaceFirstDash : List Char → List Char
  | [] => []
  | c :: t => if c = '-' then '_' :: t else c :: replaceFirstDash t

/-- The normalized generator name used by the `generateWebAudio` switch. -/
def normalizeGenerator (g : String) : String :=
  String.mk (replaceFirstDash g.toList)

/-- `generateWebAudio(implementation, options)` (part_001 lines 322–350):
dispatch on the normalized generator name; an unknown generator name throws
(line 348).  A missing `generator` field would make `.replace` throw a
`TypeError` before the switch. -/
def generateWebAudio (impl : Impl) : Except SFError Source :=
  match impl.generator with
  | none => .error .typeError
  | some g =>
      let params := impl.params.getD {}
      match normalizeGenerator g with
      | "simple_tone" => .ok (generateSimpleTone params)
      | "noise_burst" => .ok (generateNoiseBurst params)
      | "frequency_sweep" => .ok (generateFrequencySweep params)
      | "pulse_sequence" => .ok (generatePulseSequence params)
      | "complex_sequence" => .ok (generateComplexSequence params)
      | "envelope_sequence" => .ok (generateEnvelopeSequence params)
      | "chord_sequence" => .ok (generateChordSequence params)
      | "pulse_wave" => .ok (generatePulseWave params)
      | "filtered_noise" => .ok (generateFilteredNoise params)
      | _ => .error (.unsupportedGenerator g)

/-- `generateFromFile(implementation, options)` (part_001 lines 643–716).
`fetchAudio` is the browser's fetch+decode outcome for a file path (`none`
models a failed fetch or a decode failure); both the catch branch and the
cache branch are as in the source.  `options.volume` is the optional volume
override of the caller. -/
def generateFromFile (s : SFState) (fetchAudio : String → Option Buffer)
    (impl : Impl) (optionsVolume : Option ℚ) : Source :=
  let cacheKey := getCacheKey (jsOrStr impl.name "unknown") impl.params
  match s.audioBufferPool.lookup cacheKey with
  | some b =>
      .fileSource b ((optionsVolume.getD (impl.volume.getD 1.0))) impl.loop
  | none =>
      let fullPath := (jsOrStr impl.base_path "assets/audio/") ++
        (impl.file.getD "")
      match fetchAudio fullPath with
      | some b =>
          .fileSource b ((optionsVolume.getD (impl.volume.getD 1.0))) impl.loop
      | none => generateSilentSound 0.1

/-- `SoundFactory.generateSound(soundName, options)` (part_001 lines
281–314): throws when uninitialized; yields a SILENT buffer when no
implementation is registered under `soundName`; serves the pool when the
cache key hits; otherwise dispatches on the implementation `type`, THROWING
on an unsupported type (line 312). -/
def generateSound (s : SFState) (fetchAudio : String → Option Buffer)
    (soundName : String) (optionsVolume : Option ℚ := none) :
    Except SFError Source :=
  if !s.isInitialized then .error .notInitialized
  else
    match s.implementations.lookup soundName with
    | none => .ok (generateSilentSound 0.1)
    | some impl =>
        let cacheKey := getCacheKey soundName impl.params
        match s.audioBufferPool.lookup cacheKey with
        | some b => .ok (.fromBuffer b)
        | none =>
            match impl.type with
            | "web_audio" => generateWebAudio impl
            | "file" => .ok (generateFromFile s fetchAudio impl optionsVolume)
            | "third_party" => .ok (generateFromThirdParty impl)
            | "custom" => .ok (generateCustom impl)
            | t => .error (.unsupportedType t)

end SFState

namespace SFState

/-- The default sound implementations of `SoundFactory.loadDefaultConfig`
(part_001 lines 122–273), in insertion order. -/
def defaultSounds : List (String × Impl) :=
  [ ("click_sound",
      { type := "web_audio", generator := some "simple_tone"
        params := some { frequency := some 800, duration := some 0.05
                         waveType := some "sine", volume := some 0.3 } })
  , ("hover_sound",
      { type := "web_audio", generator := some "simple_tone"
        params := some { frequency := some 600, duration := some 0.03
                         waveType := some "sine", volume := some 0.2 } })
  , ("slider_move",
      { type := "web_audio", generator := some "noise_burst"
        params := some { duration := some 0.02, volume := some 0.15
                         filterType := some "lowpass"
                         filterFrequency := some 3000 } })
  , ("slider_release",
      { type := "web_audio", generator := some "simple_tone"
        params := some { frequency := some 400, duration := some 0.08
                         waveType := some "sine", volume := some 0.25 } })
  , ("coin_sound",
      { type := "web_audio", generator := some "complex_sequence"
        params := some { sequence :=
          [ { type := "tone", frequency := 800, duration := 0.05, volume := 0.3 }
          , { type := "tone", frequency := 1200, duration := 0.1, volume := 0.4 } ] } })
  , ("coin_gain",
      { type := "web_audio", generator := some "chord_sequence"
        params := some
          { chords := [ { notes := [523, 659, 784], duration := 0.15, waveType := "sine" } ],
            volume := some 0.5 } })
  , ("coin_loss",
      { type := "web_audio", generator := some "simple_tone"
        params := some { frequency := some 200, duration := some 0.2
                         waveType := some "sawtooth", volume := some 0.3 } })
  , ("level_up_sound",
      { type := "web_audio", generator := some "envelope_sequence"
        params := some { stages :=
          [ { frequency := 300, duration := 0.1, volume := 0.3, waveType := "sine" }
          , { frequency := 600, duration := 0.1, volume := 0.5, waveType := "sine" }
          , { frequency := 900, duration := 0.2, volume := 0.4, waveType := "sine" } ] } })
  , ("machine_start",
      { type := "web_audio", generator := some "envelope_sequence"
        params := some { stages :=
          [ { frequency := 100, duration := 0.3, volume := 0.2, waveType := "sawtooth" }
          , { frequency := 200, duration := 0.5, volume := 0.4, waveType := "sawtooth" } ] } })
  , ("success_sound",
      { type := "web_audio", generator := some "chord_sequence"
        params := some
          { chords := [ { notes := [659, 784, 988], duration := 0.2, waveType := "sine" },
                        { notes := [784, 988, 1175], duration := 0.3, waveType := "sine" } ],
            volume := some 0.6 } })
  , ("ambient_music",
      { type := "web_audio", generator := some "filtered_noise"
        params := some { duration := some 30.0, volume := some 0.1
                         filterType := some "lowpass"
                         filterFrequency := some 500
                         modulation := some { type := "lfo", frequency := 0.5
                                              depth := 0.05 } } })
  , ("transition_sound",
      { type := "web_audio", generator := some "pulse_wave"
        params := some { frequency := some 150, duration := some 0.3
                         pulseWidth := some 0.3, volume := some 0.3 } }) ]

/-- `SoundFactory.loadConfig(config)` (part_001 lines 50–60): clears the
implementations map and installs `config.sounds` when present. -/
def loadConfig (s : SFState) (sounds : Option (List (String × Impl))) :
    SFState :=
  { s with implementations := sounds.getD [] }

/-- `SoundFactory.loadDefaultConfig()` (part_001 lines 122–273). -/
def loadDefaultConfig (s : SFState) : SFState :=
  loadConfig s (some defaultSounds)

/-- One sound entry inside a type group of a nested external implementations
file (part_001 lines 85–99): its own fields plus the optional `parameters`
alias for `params`; an explicit `type` key would override the group key via
the object spread on line 87. -/
structure RawSound where
  type : Option String := none
  generator : Option String := none
  params : Option Params := none
  parameters : Option Params := none
  file : Option String := none
  base_path : Option String := none
  loop : Bool := false
  volume : Option ℚ := none
  name : Option String := none
deriving Repr, DecidableEq

/-- One implementation-type group of a nested external file (part_001 lines
82–102): `{ sounds: {...} }`, possibly without a `sounds` key. -/
structure ImplGroup where
  sounds : Option (List (String × RawSound)) := none
deriving Repr, DecidableEq

/-- The flattening of a nested external configuration performed inline in
`SoundFactory.loadConfigFromFile` (part_001 lines 78–105): each sound gets
`type` from its group key (unless it carries its own), and a `parameters`
field is renamed to `params`. -/
def flattenImplementations (groups : List (String × ImplGroup)) :
    List (String × Impl) :=
  groups.flatMap (fun g =>
    match g.2.sounds with
    | some snds =>
        snds.map (fun p =>
          (p.1,
            { type := (p.2.type).getD g.1
              generator := p.2.generator
              params := if (p.2.parameters).isSome then p.2.parameters
                        else p.2.params
              file := p.2.file
              base_path := p.2.base_path
              loop := p.2.loop
              volume := p.2.volume
              name := p.2.name }))
    | none => [])

/-- The parsed JSON of an external implementations file, in the two shapes
`loadConfigFromFile` distinguishes (part_001 lines 78–110): a nested
structure keyed by implementation type, or a flat structure with an optional
`sounds` key. -/
inductive FactoryFile
  | nested (implementations : List (String × ImplGroup))
  | flat (sounds : Option (List (String × Impl)))

/-- `SoundFactory.loadConfigFromFile(configPath)` (part_001 lines 66–117).
`fetched = none` models a failed fetch or unparsable body; unlike the mapping
system, the catch block here FALLS BACK to the default configuration (line
115) instead of rethrowing. -/
def loadConfigFromFile (s : SFState) (fetched : Option FactoryFile) : SFState :=
  match fetched with
  | none => loadDefaultConfig s
  | some (.nested groups) => loadConfig s (some (flattenImplementations groups))
  | some (.flat sounds) => loadConfig s sounds

/-- The argument of `SoundFactory.initialize(config)`: a config-file path
(with its fetch outcome attached), a direct config object, or nothing. -/
inductive SFInitArg
  | path (fetched : Option FactoryFile)
  | obj (sounds : Option (List (String × Impl)))
  | none

/-- `SoundFactory.initialize(config)` (part_001 lines 22–44): every branch
returns `true` with `isInitialized` set — a failed config fetch is absorbed
inside `loadConfigFromFile`, which installs the defaults. -/
def initFactory (s : SFState) (config : SFInitArg) : Bool × SFState :=
  match config with
  | .path fetched =>
      (true, { loadConfigFromFile s fetched with isInitialized := true })
  | .obj sounds => (true, { loadConfig s sounds with isInitialized := true })
  | .none => (true, { loadDefaultConfig s with isInitialized := true })

end SFState

/-! ## `AudioSystem` (src/unnamed/part_001 lines 1168–1772)

The coordinator's observable state for the concurrency claims is its
`activeSounds` set (source nodes, modelled as `Finset Nat` of node ids) and
the `isInitialized` flag; `maxConcurrentSounds` is the constructor constant 8.
Each handled event carries the environment it observes: the settings
singleton, the mapping system, the audio-context availability, and the
outcome of `soundFactory.generateSound` (a fresh node id, or `none` when
generation failed and the catch block swallowed the error).  Events are
dispatched sequentially, matching the single-threaded browser event loop the
specification describes. -/

/-- `AudioSystem` constructor constant (part_001 line 1179). -/
def maxConcurrentSounds : Nat := 8

/-- `AudioSystem.getSoundCategory(soundName)` (part_001 lines 1522–1534):
substring classification with default category `game`. -/
def getSoundCategory (soundName : String) : String :=
  if jsIncludes soundName "click" || jsIncludes soundName "hover" ||
      jsIncludes soundName "slider" then "ui"
  else if jsIncludes soundName "coin" || jsIncludes soundName "level" ||
      jsIncludes soundName "success" then "game"
  else if jsIncludes soundName "machine" || jsIncludes soundName "production"
    then "production"
  else if jsIncludes soundName "music" || jsIncludes soundName "ambient"
    then "music"
  else "game"

/-- The part of an `AudioSystem` instance's state the concurrency claims
observe (part_001 lines 1171–1180). -/
structure ASState where
  isInitialized : Bool
  activeSounds : Finset Nat
deriving DecidableEq

/-- The constructed, initialized system: `initialize` (part_001 lines
1200–1245) sets `isInitialized` and never touches `activeSounds`, which the
constructor created empty. -/
def ASState.initDone : ASState :=
  { isInitialized := true, activeSounds := ∅ }

/-- The environment one `handleAudioEvent` call observes. -/
structure HandleCtx where
  /-- the `AudioSettings` singleton's state at dispatch time. -/
  settings : AudioSettingsState
  /-- the mapping system's state at dispatch time. -/
  mapping : SMSState GameData
  /-- whether the `AudioContext` exists and is (or can be resumed to)
  running (part_001 lines 1468–1482). -/
  contextOk : Bool
  /-- `soundFactory.generateSound`'s outcome: a fresh source node id, or
  `none` when it threw (the error is caught at part_001 line 1511). -/
  genSource : Option Nat

/-- `AudioSystem.trackActiveSound(source, soundName)` (part_001 lines
1564–1588), restricted to its synchronous effect: add the source to
`activeSounds`.  Its `onended` rewiring and 10-second timeout are modelled by
the `TrackedEvt` semantics below. -/
def ASState.trackActiveSound (s : ASState) (src : Nat) : ASState :=
  { s with activeSounds := insert src s.activeSounds }

/-- `AudioSystem.playSound(soundName, options)` (part_001 lines 1462–1515):
fails (returning `false`) when uninitialized, when the context is
unavailable, when the effective category volume is `≤ 0`, or when
`generateSound` throws; otherwise tracks the fresh source and returns
`true`. -/
def ASState.playSound (s : ASState) (ctx : HandleCtx) (soundName : String) :
    Bool × ASState :=
  if !s.isInitialized then (false, s)
  else if !ctx.contextOk then (false, s)
  else
    let category := getSoundCategory soundName
    let volume := ctx.settings.getVolume (some category)
    if volume ≤ 0 then (false, s)
    else
      match ctx.genSource with
      | none => (false, s)
      | some src => (true, s.trackActiveSound src)

/-- `AudioSystem.handleAudioEvent(eventType, data)` (part_001 lines
1417–1454): drops the event when uninitialized, when the global volume is
falsy (0), when no sound is mapped, or — THE CAP CHECK (lines 1439–1442) —
when `activeSounds.size >= maxConcurrentSounds`; otherwise plays. -/
def ASState.handleAudioEvent (s : ASState) (ctx : HandleCtx)
    (eventType : String) (data : GameData) : ASState :=
  if !s.isInitialized then s
  else if ctx.settings.getVolume none = 0 then s
  else
    match ctx.mapping.getSoundForAction eventType data with
    | none => s
    | some soundName =>
        if maxConcurrentSounds ≤ s.activeSounds.card then s
        else (s.playSound ctx soundName).2

/-- The events that touch `activeSounds`: a dispatched audio event, a
source's `onended` callback (part_001 lines 1569–1574), the 10-second
timeout callback (lines 1577–1587), and `stopAllSounds` (lines 1645–1655). -/
inductive ASEvent
  | audioEvent (ctx : HandleCtx) (eventType : String) (data : GameData)
  | soundEnded (src : Nat)
  | timerFire (src : Nat)
  | stopAll

/-- One step of the event loop. -/
def ASState.step (s : ASState) : ASEvent → ASState
  | .audioEvent ctx eventType data => s.handleAudioEvent ctx eventType data
  | .soundEnded src => { s with activeSounds := s.activeSounds.erase src }
  | .timerFire src => { s with activeSounds := s.activeSounds.erase src }
  | .stopAll => { s with activeSounds := ∅ }

/-- Sequential dispatch of a list of events. -/
def ASState.run (s : ASState) (evts : List ASEvent) : ASState :=
  evts.foldl ASState.step s

/-! ### The per-source eviction semantics of `trackActiveSound` (claim C4)

After `trackActiveSound` admits a source at wall-clock time `t0`, exactly
three callbacks can fire for it: its rewired `onended`, the `setTimeout`
callback scheduled for `t0 + 10000` ms, and `stopAllSounds`.  Timers are
modelled as firing exactly at their scheduled wall-clock time (the browser
guarantee is "no earlier"; the 10-second bound of the claim is read under
this idealized timer). -/

/-- A callback touching one tracked source. -/
inductive TrackedEvt
  | onended
  | timerFire
  | stopAll
deriving DecidableEq, Repr

/-- Effect of one callback on the source's membership in `activeSounds`:
`onended` deletes unconditionally (part_001 line 1570), the timeout deletes
when still present (lines 1578–1585), `stopAllSounds` clears (line 1653). -/
def stepTracked (active : Bool) : TrackedEvt → Bool
  | .onended => false
  | .timerFire => if active then false else active
  | .stopAll => false

/-- Whether the source is still in `activeSounds` at wall-clock time `T`,
given the timestamped callbacks fired for it: the source starts tracked, and
every callback with timestamp `≤ T` has run in order. -/
def trackedActiveAt (callbacks : List (Nat × TrackedEvt)) (T : Nat) : Bool :=
  ((callbacks.filter (fun p => p.1 ≤ T)).map Prod.snd).foldl stepTracked true

/-! ## `app.js` — UI state, sliders, production flow

The DOM elements cached in `DOMCache` become record fields; the five process
dimensions become the enumeration `PType`.  A range input's `.value` is the
decimal string of an integer in `0..100`; it is modelled by that integer, and
the string writes (`value + '%'`) render it with `natToDecString`, the
embedding of JS `Number.prototype.toString` in base 10. -/

/-- Decimal digit characters of `n`, most significant first: the embedding of
JS `n.toString()` for a nonnegative integer (also `Date.now().toString()`). -/
def jsDigitChars (n : Nat) : List Char :=
  if _h : n < 10 then [Nat.digitChar n]
  else jsDigitChars (n / 10) ++ [Nat.digitChar (n % 10)]
termination_by n
decreasing_by
  exact Nat.div_lt_self (Nat.pos_of_ne_zero (by omega)) (by omega)

/-- JS `n.toString()` as a string. -/
def natToDecString (n : Nat) : String :=
  String.mk (jsDigitChars n)

/-- JS `s.slice(-k)` on a char list: the last `k` characters (the whole list
when it is shorter than `k`). -/
def lastChars (l : List Char) (k : Nat) : List Char :=
  l.drop (l.length - k)

/-- The five production dimensions (`recipe`, `production`, `quality`,
`packaging`, `logistics`). -/
inductive PType
  | recipe
  | production
  | quality
  | packaging
  | logistics
deriving DecidableEq, Repr

/-- `Utils.getQualityLabel(value)` (app.js lines 118–122). -/
def getQualityLabel (value : Int) : String :=
  if 80 ≤ value then "优秀"
  else if 60 ≤ value then "良好"
  else "一般"

/-- `Utils.getCostLabel(totalScore)` (app.js lines 129–133). -/
def getCostLabel (totalScore : ℚ) : String :=
  if 80 ≤ totalScore then "高"
  else if 60 ≤ totalScore then "中等"
  else "低"

/-- `Utils.getStepNumber(type)` (app.js lines 140–149). -/
def getStepNumber : PType → Nat
  | .recipe => 1
  | .production => 2
  | .quality => 3
  | .packaging => 4
  | .logistics => 5

/-- `Utils.getTypeFromStep(step)` (app.js lines 156–165); an unknown step
number yields `undefined`. -/
def getTypeFromStep : Nat → Option PType
  | 1 => some .recipe
  | 2 => some .production
  | 3 => some .quality
  | 4 => some .packaging
  | 5 => some .logistics
  | _ => none

/-- `Utils.getProcessColor(type)` (app.js lines 172–181). -/
def getProcessColor : PType → String
  | .recipe => "#FF6B6B"
  | .production => "#4ECDC4"
  | .quality => "#45B7D1"
  | .packaging => "#96CEB4"
  | .logistics => "#FFE66D"

/-- The UI state touched by the slider, reset and production-flow modules:
`AppState`, the cached slider/step/connector DOM nodes, and the product-card
output node.  CSS class toggles on service cards and emoji options reduce to
the selected identifiers stored in `AppState`. -/
structure AppUIState where
  /-- the `.value` of each range input, as its integer value. -/
  sliderValue : PType → Nat
  /-- `sliderValues[type].textContent`. -/
  sliderDisplayText : PType → String
  /-- `stepValues[type].textContent`. -/
  stepDisplayText : PType → String
  /-- `steps[type].style.opacity`. -/
  stepOpacity : PType → ℚ
  /-- whether `steps[type]` carries the `active` class. -/
  stepActive : PType → Bool
  /-- whether `steps[type]` carries the `completed` class. -/
  stepCompleted : PType → Bool
  /-- `connectors[type].style.background`. -/
  connectorColor : PType → String
  /-- `connectors[type].style.opacity`. -/
  connectorOpacity : PType → ℚ
  /-- whether `connectors[type]` carries the `active` class. -/
  connectorActive : PType → Bool
  /-- `AppState.processConfig[type]`. -/
  processConfig : PType → Nat
  /-- whether `product-output` carries the `show` class. -/
  productShow : Bool
  /-- `trackingNumber.textContent`. -/
  trackingNumberText : String
  /-- `AppState.selectedService`. -/
  selectedService : String
  /-- `AppState.selectedEmoji`. -/
  selectedEmoji : String
  /-- `AppState.currentStep`. -/
  currentStep : Nat

/-- `SliderController.updateConnectorColor(type, value)` (app.js lines
236–245): writes the process color and the opacity `value / 100` into the
connector element. -/
def updateConnectorColor (t : PType) (value : Nat) (s : AppUIState) :
    AppUIState :=
  { s with
    connectorColor := updF s.connectorColor t (getProcessColor t)
    connectorOpacity := updF s.connectorOpacity t ((value : ℚ) / 100) }

/-- `SliderController.updateSlider(type)` (app.js lines 208–229): reads the
slider's value, stores it into `AppState.processConfig`, writes
`value + '%'` into both the slider value display and the step display, sets
the step opacity to `value / 100`, and updates the connector. -/
def updateSlider (t : PType) (s : AppUIState) : AppUIState :=
  let value := s.sliderValue t
  let s' :=
    { s with
      processConfig := updF s.processConfig t value
      sliderDisplayText := updF s.sliderDisplayText t (natToDecString value ++ "%")
      stepDisplayText := updF s.stepDisplayText t (natToDecString value ++ "%")
      stepOpacity := updF s.stepOpacity t ((value : ℚ) / 100) }
  updateConnectorColor t value s'

/-- `SliderController.initialize()` (app.js lines 196–202): updates the five
sliders in order. -/
def initSliders (s : AppUIState) : AppUIState :=
  updateSlider .logistics (updateSlider .packaging (updateSlider .quality
    (updateSlider .production (updateSlider .recipe s))))

/-- `UIController.resetSliders()` (app.js lines 336–344): writes the five
default values into the range inputs, then reruns
`SliderController.initialize()`. -/
def resetSliders (s : AppUIState) : AppUIState :=
  let sv :=
    updF (updF (updF (updF (updF s.sliderValue .recipe 75) .production 80)
      .quality 90) .packaging 70) .logistics 85
  initSliders { s with sliderValue := sv }

/-- `UIController.resetUIState()` (app.js lines 318–331): restores the first
service card and emoji option as selected. -/
def resetUIState (s : AppUIState) : AppUIState :=
  { s with selectedEmoji := "🐱" }

/-- The body of `ProductionController.resetProcess` for one step number
(app.js lines 470–482): drops the animation classes and rewrites the step
opacity and connector from the current `processConfig`. -/
def resetProcessStep (s : AppUIState) (i : Nat) : AppUIState :=
  match getTypeFromStep i with
  | none => s
  | some t =>
      let value := s.processConfig t
      let s' :=
        { s with
          stepActive := updF s.stepActive t false
          stepCompleted := updF s.stepCompleted t false
          connectorActive := updF s.connectorActive t false
          stepOpacity := updF s.stepOpacity t ((value : ℚ) / 100) }
      updateConnectorColor t value s'

/-- `ProductionController.resetProcess()` (app.js lines 469–483): the loop
`for (let i = 1; i <= 5; i++)`. -/
def resetProcess (s : AppUIState) : AppUIState :=
  [1, 2, 3, 4, 5].foldl resetProcessStep s

/-- `UIController.resetSystem()` (app.js lines 298–313): restores the default
service and step index, the UI selection state, the default slider values
(propagated through `SliderController.initialize`), the production flow, and
removes the product card's `show` class. -/
def resetSystem (s : AppUIState) : AppUIState :=
  let s0 := { s with selectedService := "premium", currentStep := 0 }
  let s1 := resetUIState s0
  let s2 := resetSliders s1
  let s3 := resetProcess s2
  { s3 with productShow := false }

/-- `ProductionController.generateTrackingNumber()` (app.js lines 462–464):
writes the template string of `Date.now().toString().slice(-8)`; `nowMs` is
the clock reading in milliseconds. -/
def generateTrackingNumber (nowMs : Nat) : String :=
  "TRK-" ++ String.mk (lastChars (jsDigitChars nowMs) 8)

/-- `ProductionController.showFinalProduct()` (app.js lines 401–409)
restricted to the fields this model carries: `updateProductInfo` ends by
writing the tracking number, and the product output gains the `show`
class. -/
def showFinalProduct (nowMs : Nat) (s : AppUIState) : AppUIState :=
  { s with
    trackingNumberText := generateTrackingNumber nowMs
    productShow := true }

/-- The `TRK-########` pattern of the specification: the literal prefix
`TRK-` followed by exactly 8 decimal digits. -/
def matchesTRK (s : String) : Bool :=
  let l := s.toList
  l.take 4 == ['T', 'R', 'K', '-'] && l.length == 12 &&
    (l.drop 4).all Char.isDigit

/-! ## Concrete instances used by the witnesses and counterexamples -/

/-- The default slider values named by the specification
(75 / 80 / 90 / 70 / 85). -/
def defaultSliderValue : PType → Nat
  | .recipe => 75
  | .production => 80
  | .quality => 90
  | .packaging => 70
  | .logistics => 85

/-- A concrete UI state with every slider at 42 and blank displays. -/
def demoUIState : AppUIState :=
  { sliderValue := fun _ => 42
    sliderDisplayText := fun _ => ""
    stepDisplayText := fun _ => ""
    stepOpacity := fun _ => 1
    stepActive := fun _ => false
    stepCompleted := fun _ => false
    connectorColor := fun _ => ""
    connectorOpacity := fun _ => 1
    connectorActive := fun _ => false
    processConfig := fun _ => 0
    productShow := false
    trackingNumberText := ""
    selectedService := "premium"
    selectedEmoji := "🐱"
    currentStep := 0 }

/-- The mapping system right after `initialize()` with no argument: default
configuration loaded. -/
def defaultSMS : SMSState GameData :=
  (SMSState.initSystem (SMSState.ctor GameData) SMSState.SMSInitArg.none).2

/-- Event data with a positive `delta`, firing the `money_increased` default
conditional mapping. -/
def demoData : GameData :=
  { delta := 5, quality := 50, mood := "", time_of_day := "" }

/-- Neutral event data firing no default conditional mapping. -/
def neutralData : GameData :=
  { delta := 0, quality := 50, mood := "", time_of_day := "" }

/-- An initialized factory whose only implementation carries the unsupported
type `bogus`. -/
def bogusTypeFactory : SFState :=
  { implementations := [("weird_sound", { type := "bogus" })]
    audioBufferPool := []
    isInitialized := true }

/-- An initialized factory whose only implementation is `web_audio` with the
unsupported generator name `fancy_gen`. -/
def bogusGenFactory : SFState :=
  { implementations :=
      [("odd_sound", { type := "web_audio", generator := some "fancy_gen" })]
    audioBufferPool := []
    isInitialized := true }

/-- An initialized factory with no implementations at all. -/
def emptyFactory : SFState :=
  { implementations := [], audioBufferPool := [], isInitialized := true }

/-- A fetch oracle that always fails. -/
def noFetch : String → Option Buffer := fun _ => none

/-- An `AudioSystem` state holding eight active sounds — exactly at the
concurrency cap. -/
def capState : ASState :=
  { isInitialized := true, activeSounds := {0, 1, 2, 3, 4, 5, 6, 7} }

/-- A fully permissive dispatch environment: default settings, the default
mapping table, a running context, and a fresh source id 8 on success. -/
def demoCtx : HandleCtx :=
  { settings := AudioSettingsState.defaults
    mapping := defaultSMS
    contextOk := true
    genSource := some 8 }

/-! ## Helper lemmas -/

/-- Every callback on a tracked source leaves it out of `activeSounds`:
`onended` and `stopAllSounds` delete unconditionally, and the timeout deletes
exactly when the source is still present. -/
theorem stepTracked_eq_false (b : Bool) (e : TrackedEvt) :
    stepTracked b e = false := by
  cases e <;> cases b <;> rfl

/-- Once evicted, a tracked source never reappears. -/
theorem foldl_stepTracked_false (l : List TrackedEvt) :
    l.foldl stepTracked false = false := by
  induction l with
  | nil => rfl
  | cons x t ih => rw [List.foldl_cons, stepTracked_eq_false]; exact ih

/-- A tracked source is evicted as soon as any of its callbacks has run. -/
theorem foldl_stepTracked_of_ne_nil (b : Bool) (l : List TrackedEvt)
    (h : l ≠ []) : l.foldl stepTracked b = false := by
  cases l with
  | nil => exact absurd rfl h
  | cons x t => rw [List.foldl_cons, stepTracked_eq_false]
                exact foldl_stepTracked_false t

/-! ## Claim theorems -/

/-- C4: every sound admitted to the active set by
`AudioSystem.trackActiveSound` is out of `activeSounds` no later than 10
seconds (10000 ms) of wall-clock time after it was tracked: its rewired
`onended` callback removes it earlier, or the timeout scheduled for
`t0 + 10000` deletes it (and stops the source).  Timers are modelled as
firing at their scheduled time, so any observation at `T ≥ t0 + 10000` sees
the source evicted. -/
theorem trackedSound_evicted_within_10s (t0 T : Nat)
    (cbs : List (Nat × TrackedEvt))
    (htimer : (t0 + 10000, TrackedEvt.timerFire) ∈ cbs)
    (hT : t0 + 10000 ≤ T) :
    trackedActiveAt cbs T = false := by
  unfold trackedActiveAt
  apply foldl_stepTracked_of_ne_nil
  intro hnil
  have hmem : (t0 + 10000, TrackedEvt.timerFire) ∈
      cbs.filter (fun p => p.1 ≤ T) :=
    List.mem_filter.mpr ⟨htimer, by simpa using hT⟩
  have hmap := List.mem_map_of_mem Prod.snd hmem
  rw [hnil] at hmap
  exact absurd hmap (List.not_mem_nil _)

/-- Witness for C4 at a concrete trace: a source tracked at time 0 whose
only callback is the timeout at 10000 ms is inactive at time 10000. -/
theorem trackedSound_evicted_within_10s_witness :
    trackedActiveAt [(10000, TrackedEvt.timerFire)] 10000 = false :=
  trackedSound_evicted_within_10s 0 10000 [(10000, TrackedEvt.timerFire)]
    (by decide) (by decide)

/-- C7: `Utils.getQualityLabel` maps every numeric value by threshold
comparison — `优秀` (excellent) for values `≥ 80`, `良好` for values in
`[60, 80)`, and `一般` for values `< 60`. -/
theorem getQualityLabel_thresholds (v : Int) :
    (80 ≤ v → getQualityLabel v = "优秀") ∧
    (60 ≤ v → v < 80 → getQualityLabel v = "良好") ∧
    (v < 60 → getQualityLabel v = "一般") := by
  unfold getQualityLabel
  refine ⟨fun h => by rw [if_pos h], fun h1 h2 => ?_, fun h => ?_⟩
  · rw [if_neg (by omega), if_pos h1]
  · rw [if_neg (by omega), if_neg (by omega)]

/-- Witness for C7 at the concrete values 85, 70 and 30. -/
theorem getQualityLabel_thresholds_witness :
    getQualityLabel 85 = "优秀" ∧ getQualityLabel 70 = "良好" ∧
    getQualityLabel 30 = "一般" :=
  ⟨(getQualityLabel_thresholds 85).1 (by decide),
   (getQualityLabel_thresholds 70).2.1 (by decide) (by decide),
   (getQualityLabel_thresholds 30).2.2 (by decide)⟩

/-- C6: `UIController.resetSystem` restores every slider to its default
value (recipe 75, production 80, quality 90, packaging 70, logistics 85),
re-propagates those values through `SliderController.initialize` to
`AppState.processConfig`, the displayed percentage strings and the step
opacity, and removes the product card's `show` class. -/
theorem resetSystem_restores_defaults (s : AppUIState) (t : PType) :
    (resetSystem s).sliderValue t = defaultSliderValue t ∧
    (resetSystem s).processConfig t = defaultSliderValue t ∧
    (resetSystem s).sliderDisplayText t =
      natToDecString (defaultSliderValue t) ++ "%" ∧
    (resetSystem s).stepDisplayText t =
      natToDecString (defaultSliderValue t) ++ "%" ∧
    (resetSystem s).stepOpacity t = (defaultSliderValue t : ℚ) / 100 ∧
    (resetSystem s).productShow = false := by
  cases t <;> exact ⟨rfl, rfl, rfl, rfl, rfl, rfl⟩

/-- C8: `SliderController.updateSlider` writes the percentage string
`value + '%'` into both the slider value display and the step display, and
sets both the step opacity and the connector opacity to `value / 100`. -/
theorem updateSlider_updates_display (s : AppUIState) (t : PType) (v : Nat)
    (hv : s.sliderValue t = v) (hrange : v ≤ 100) :
    (updateSlider t s).sliderDisplayText t = natToDecString v ++ "%" ∧
    (updateSlider t s).stepDisplayText t = natToDecString v ++ "%" ∧
    (updateSlider t s).stepOpacity t = (v : ℚ) / 100 ∧
    (updateSlider t s).connectorOpacity t = (v : ℚ) / 100 := by
  subst hv
  unfold updateSlider updateConnectorColor
  refine ⟨?_, ?_, ?_, ?_⟩ <;> simp [updF]

/-- Witness for C8: a state with the recipe slider at 42. -/
theorem updateSlider_updates_display_witness :
    (updateSlider PType.recipe demoUIState).sliderDisplayText PType.recipe =
      natToDecString 42 ++ "%" ∧
    (updateSlider PType.recipe demoUIState).stepDisplayText PType.recipe =
      natToDecString 42 ++ "%" ∧
    (updateSlider PType.recipe demoUIState).stepOpacity PType.recipe =
      (42 : ℚ) / 100 ∧
    (updateSlider PType.recipe demoUIState).connectorOpacity PType.recipe =
      (42 : ℚ) / 100 :=
  updateSlider_updates_display demoUIState PType.recipe 42 rfl (by decide)

/-- C10: in `SoundMappingSystem.getSoundForAction`, conditional mappings
take precedence over the basic table independently of the action name: when
the scan of `conditionalMappings` (in insertion order) finds a mapping whose
condition holds on `data`, that mapping's sound is returned whatever the
action is; the basic table (`|| null`) is consulted only when no condition
matches. -/
theorem getSoundForAction_conditional_precedence {α : Type}
    (s : SMSState α) (action action2 : String) (data : α)
    (hinit : s.isInitialized = true) :
    (∀ p, s.conditionalMappings.find? (SMSState.condHolds data) = some p →
      s.getSoundForAction action data = some p.2.sound ∧
      s.getSoundForAction action data = s.getSoundForAction action2 data) ∧
    (s.conditionalMappings.find? (SMSState.condHolds data) = none →
      s.getSoundForAction action data = jsOrNull (s.mappings.lookup action)) := by
  constructor
  · intro p hp
    constructor <;> simp [SMSState.getSoundForAction, hinit, hp]
  · intro hnone
    simp [SMSState.getSoundForAction, hinit, hnone]

/-- Witness for C10 on the default configuration: event data with positive
`delta` fires `money_increased`, so `coin_gain` is returned even though
`button_click` has the basic mapping `click_sound`, and the result does not
depend on the action name. -/
theorem getSoundForAction_conditional_precedence_witness :
    defaultSMS.getSoundForAction "button_click" demoData = some "coin_gain" ∧
    defaultSMS.getSoundForAction "button_click" demoData =
      defaultSMS.getSoundForAction "production_started" demoData := by
  have h := (getSoundForAction_conditional_precedence defaultSMS
    "button_click" "production_started" demoData rfl).1
    ("money_increased", SMSState.moneyIncreasedMapping) rfl
  exact ⟨h.1, h.2⟩

/-- `playSound` adds at most one source to `activeSounds`. -/
theorem playSound_card_le (s : ASState) (ctx : HandleCtx) (n : String) :
    ((s.playSound ctx n).2).activeSounds.card ≤ s.activeSounds.card + 1 := by
  unfold ASState.playSound ASState.trackActiveSound
  dsimp only
  repeat' split
  all_goals
    first
      | exact Nat.le_succ _
      | exact Finset.card_insert_le _ _

/-- `handleAudioEvent` preserves the concurrency bound: it only admits a new
source after checking `activeSounds.size < maxConcurrentSounds`. -/
theorem handleAudioEvent_card_le (s : ASState) (ctx : HandleCtx)
    (eventType : String) (data : GameData)
    (h : s.activeSounds.card ≤ maxConcurrentSounds) :
    (s.handleAudioEvent ctx eventType data).activeSounds.card ≤
      maxConcurrentSounds := by
  unfold ASState.handleAudioEvent
  repeat' split
  any_goals exact h
  all_goals
    rename_i soundName heq hcap
    have hp := playSound_card_le s ctx soundName
    omega

/-- Every event-loop step preserves the concurrency bound. -/
theorem step_card_le (s : ASState) (e : ASEvent)
    (h : s.activeSounds.card ≤ maxConcurrentSounds) :
    (s.step e).activeSounds.card ≤ maxConcurrentSounds := by
  cases e with
  | audioEvent ctx eventType data => exact handleAudioEvent_card_le s ctx eventType data h
  | soundEnded src => exact le_trans (Finset.card_erase_le) h
  | timerFire src => exact le_trans (Finset.card_erase_le) h
  | stopAll => simp [ASState.step]

/-- The concurrency bound is an invariant of any event sequence. -/
theorem run_card_le (s : ASState) (evts : List ASEvent)
    (h : s.activeSounds.card ≤ maxConcurrentSounds) :
    (s.run evts).activeSounds.card ≤ maxConcurrentSounds := by
  induction evts generalizing s with
  | nil => exact h
  | cons e t ih => exact ih (s.step e) (step_card_le s e h)

/-- C1: over every sequence of events handled by
`AudioSystem.handleAudioEvent` (interleaved with `onended`, timeout and
`stopAllSounds` callbacks), the size of `activeSounds` never exceeds the
fixed cap `maxConcurrentSounds = 8`; and an audio event arriving while the
cap is reached leaves the state unchanged — the sound is not played, the
bound having been checked before every playback. -/
theorem activeSounds_card_bounded :
    (∀ evts : List ASEvent,
      (ASState.initDone.run evts).activeSounds.card ≤
        maxConcurrentSounds) ∧
    (∀ (s : ASState) (ctx : HandleCtx) (eventType : String) (data : GameData),
      maxConcurrentSounds ≤ s.activeSounds.card →
      s.handleAudioEvent ctx eventType data = s) := by
  constructor
  · intro evts
    exact run_card_le _ _ (by simp [ASState.initDone])
  · intro s ctx eventType data h
    unfold ASState.handleAudioEvent
    repeat' split
    all_goals rfl

/-- Witness for C1: the empty event sequence keeps the bound, and at the
concrete state holding the eight sources `0..7` a further audio event in a
fully permissive environment is ignored. -/
theorem activeSounds_card_bounded_witness :
    (ASState.initDone.run []).activeSounds.card ≤ maxConcurrentSounds ∧
    capState.handleAudioEvent demoCtx "button_click" demoData = capState :=
  ⟨activeSounds_card_bounded.1 [],
   activeSounds_card_bounded.2 capState demoCtx "button_click" demoData
     (by decide)⟩

/-- `updateCat` rewrites exactly the looked-up entry. -/
theorem lookup_updateCat (l : List (String × CatSetting)) (c : String)
    (f : CatSetting → CatSetting) :
    (AudioSettingsState.updateCat l c f).lookup c = (l.lookup c).map f := by
  induction l with
  | nil => rfl
  | cons p t ih =>
    obtain ⟨k, v⟩ := p
    by_cases hc : k = c
    · subst hc
      simp only [AudioSettingsState.updateCat, List.map]
      simp [List.lookup]
    · simp only [AudioSettingsState.updateCat, List.map] at ih ⊢
      rw [if_neg hc]
      have hck : (c == k) = false := by
        simp only [beq_eq_false_iff_ne, ne_eq]
        exact fun h => hc h.symm
      simp only [List.lookup, hck]
      exact ih

/-- `Math.max(0, Math.min(1, v))` is nonnegative. -/
theorem clamp01_nonneg (v : ℚ) : 0 ≤ AudioSettingsState.clamp01 v :=
  le_max_left _ _

/-- `Math.max(0, Math.min(1, v))` is at most 1. -/
theorem clamp01_le_one (v : ℚ) : AudioSettingsState.clamp01 v ≤ 1 :=
  max_le (by norm_num) (min_le_left _ _)

/-- C9: `AudioSettings.getVolume` always returns a value in `[0, 1]`; it
returns exactly 0 when the global `enabled` flag is false, the global `mute`
flag is true, or the requested category exists and is disabled; otherwise,
for a known category, it returns the clamped product of the master volume
with that category's volume.  This holds on every settings state reachable
through `setMasterVolume`, `setCategoryVolume`, `setMute` and `setEnabled`,
and those setters clamp their volume arguments into `[0, 1]` before
storing. -/
theorem getVolume_bounds (s : AudioSettingsState)
    (_hs : AudioSettingsState.Reachable s) (category : Option String) :
    (0 ≤ s.getVolume category ∧ s.getVolume category ≤ 1) ∧
    (s.global.enabled = false ∨ s.global.mute = true →
      s.getVolume category = 0) ∧
    (∀ c cs, category = some c → s.categories.lookup c = some cs →
      cs.enabled = false → s.getVolume category = 0) ∧
    (∀ c cs, category = some c → s.categories.lookup c = some cs →
      cs.enabled = true → s.global.enabled = true → s.global.mute = false →
      s.getVolume category =
        AudioSettingsState.clamp01 (s.global.masterVolume * cs.volume)) ∧
    (∀ v, (AudioSettingsState.setMasterVolume v s).global.masterVolume =
      AudioSettingsState.clamp01 v) ∧
    (∀ c v,
      (AudioSettingsState.setCategoryVolume c v s).categories.lookup c =
        (s.categories.lookup c).map
          (fun cs => { cs with volume := AudioSettingsState.clamp01 v })) := by
  refine ⟨?_, ?_, ?_, ?_, fun v => rfl, ?_⟩
  · unfold AudioSettingsState.getVolume
    split
    · exact ⟨le_refl 0, by norm_num⟩
    · split
      · split
        · exact ⟨le_refl 0, by norm_num⟩
        · exact ⟨clamp01_nonneg _, clamp01_le_one _⟩
      · exact ⟨clamp01_nonneg _, clamp01_le_one _⟩
  · intro h
    rcases h with h | h <;> simp [AudioSettingsState.getVolume, h]
  · intro c cs hc hl he
    subst hc
    simp [AudioSettingsState.getVolume, hl, he]
  · intro c cs hc hl he hg hm
    subst hc
    simp [AudioSettingsState.getVolume, hl, he, hg, hm]
  · intro c v
    unfold AudioSettingsState.setCategoryVolume
    by_cases hx : (s.categories.lookup c).isSome
    · rw [if_pos hx]
      exact lookup_updateCat s.categories c
        (fun cs => { cs with volume := AudioSettingsState.clamp01 v })
    · rw [if_neg hx]
      rw [Option.not_isSome_iff_eq_none] at hx
      rw [hx]
      rfl

/-- Witness for C9 at the default settings with category `ui`: the volume is
in `[0, 1]` and equals the clamped product `clamp01(0.8 * 0.7)`. -/
theorem getVolume_bounds_witness :
    (0 ≤ AudioSettingsState.defaults.getVolume (some "ui") ∧
      AudioSettingsState.defaults.getVolume (some "ui") ≤ 1) ∧
    AudioSettingsState.defaults.getVolume (some "ui") =
      AudioSettingsState.clamp01 (0.8 * 0.7) := by
  have h := getVolume_bounds AudioSettingsState.defaults
    AudioSettingsState.Reachable.default (some "ui")
  exact ⟨h.1, h.2.2.2.1 "ui" { volume := 0.7, enabled := true } rfl rfl rfl
    rfl rfl⟩

/-- C2 counterexample: `SoundFactory.generateSound` DOES throw to its caller
at concrete inputs — an implementation with the unsupported type `bogus`
yields a thrown error (part_001 line 312), and a `web_audio` implementation
with the unsupported generator name `fancy_gen` yields a thrown error
(part_001 line 348); neither yields a silent buffer. -/
theorem generateSound_throws_counterexample :
    bogusTypeFactory.generateSound noFetch "weird_sound" =
      Except.error (SFError.unsupportedType "bogus") ∧
    bogusGenFactory.generateSound noFetch "odd_sound" =
      Except.error (SFError.unsupportedGenerator "fancy_gen") :=
  ⟨rfl, rfl⟩

/-- C2 (amended): `generateSound` yields a silent buffer (without throwing)
only when NO implementation is registered under the sound name; for a
registered implementation with an unsupported `type`, or a `web_audio`
implementation with an unsupported generator name, it throws to its caller
(`playSound` catches the error, logs, and returns `false`). -/
theorem generateSound_fallback_and_throw :
    (∀ (s : SFState) (f : String → Option Buffer) (name : String),
      s.isInitialized = true →
      s.implementations.lookup name = none →
      s.generateSound f name = Except.ok (Source.silent 0.1)) ∧
    (∀ (s : SFState) (f : String → Option Buffer) (name : String)
        (impl : Impl),
      s.isInitialized = true →
      s.implementations.lookup name = some impl →
      s.audioBufferPool.lookup (SFState.getCacheKey name impl.params) = none →
      impl.type ≠ "web_audio" → impl.type ≠ "file" →
      impl.type ≠ "third_party" → impl.type ≠ "custom" →
      s.generateSound f name =
        Except.error (SFError.unsupportedType impl.type)) ∧
    (∀ (s : SFState) (f : String → Option Buffer) (name : String)
        (impl : Impl) (g : String),
      s.isInitialized = true →
      s.implementations.lookup name = some impl →
      s.audioBufferPool.lookup (SFState.getCacheKey name impl.params) = none →
      impl.type = "web_audio" →
      impl.generator = some g →
      SFState.normalizeGenerator g ∉
        (["simple_tone", "noise_burst", "frequency_sweep", "pulse_sequence",
          "complex_sequence", "envelope_sequence", "chord_sequence",
          "pulse_wave", "filtered_noise"] : List String) →
      s.generateSound f name =
        Except.error (SFError.unsupportedGenerator g)) := by
  refine ⟨?_, ?_, ?_⟩
  · intro s f name h1 h2
    simp [SFState.generateSound, SFState.generateSilentSound, h1, h2]
  · intro s f name impl h1 h2 h3 h4 h5 h6 h7
    simp only [SFState.generateSound, h1, h2, h3]
    split <;> simp_all
  · intro s f name impl g h1 h2 h3 h4 h5 h6
    simp only [SFState.generateSound, h1, h2, h3, h4,
      SFState.generateWebAudio, h5]
    split <;> simp_all

/-- Witness for C2 (amended) at concrete factories: an unknown name yields
the silent source, the `bogus` type and the `fancy_gen` generator throw. -/
theorem generateSound_fallback_and_throw_witness :
    emptyFactory.generateSound noFetch "missing_sound" =
      Except.ok (Source.silent 0.1) ∧
    bogusTypeFactory.generateSound noFetch "weird_sound" =
      Except.error (SFError.unsupportedType "bogus") ∧
    bogusGenFactory.generateSound noFetch "odd_sound" =
      Except.error (SFError.unsupportedGenerator "fancy_gen") :=
  ⟨generateSound_fallback_and_throw.1 emptyFactory noFetch "missing_sound"
      rfl rfl,
   generateSound_fallback_and_throw.2.1 bogusTypeFactory noFetch
      "weird_sound" { type := "bogus" } rfl rfl rfl (by decide) (by decide)
      (by decide) (by decide),
   generateSound_fallback_and_throw.2.2 bogusGenFactory noFetch "odd_sound"
      { type := "web_audio", generator := some "fancy_gen" } "fancy_gen"
      rfl rfl rfl rfl rfl (by decide)⟩

/-- C3 counterexample: when the mappings-file fetch fails,
`SoundMappingSystem.initialize` does NOT end up initialized with default
mappings — `loadConfigFromFile` rethrows, the catch returns `false`, and the
system stays uninitialized with empty maps. -/
theorem smsInit_path_failure_counterexample :
    (SMSState.initSystem (SMSState.ctor GameData)
      (SMSState.SMSInitArg.path Option.none)).1 = false ∧
    (SMSState.initSystem (SMSState.ctor GameData)
      (SMSState.SMSInitArg.path Option.none)).2.isInitialized = false ∧
    (SMSState.initSystem (SMSState.ctor GameData)
      (SMSState.SMSInitArg.path Option.none)).2.mappings = [] :=
  ⟨rfl, rfl, rfl⟩

/-- C3 (amended): on a failed configuration-file fetch, the two systems
diverge — `SoundFactory.initialize` falls back to the default
implementations and still reports success `true`, while
`SoundMappingSystem.initialize` reports failure `false` and is left
untouched (uninitialized, no default mappings); in both cases the outcome
reaches the caller only as the boolean flag. -/
theorem initFromFile_failure_behavior :
    (∀ sf : SFState,
      SFState.initFactory sf (SFState.SFInitArg.path Option.none) =
        (true, { implementations := SFState.defaultSounds,
                 audioBufferPool := sf.audioBufferPool,
                 isInitialized := true })) ∧
    (∀ sm : SMSState GameData,
      SMSState.initSystem sm (SMSState.SMSInitArg.path Option.none) =
        (false, sm)) :=
  ⟨fun _ => rfl, fun _ => rfl⟩

/-- The digit character of a value below 10 is a decimal digit. -/
theorem digitChar_isDigit (d : Nat) (h : d < 10) :
    (Nat.digitChar d).isDigit = true := by
  interval_cases d <;> decide

/-- A decimal rendering is never empty. -/
theorem jsDigitChars_ne_nil (n : Nat) : jsDigitChars n ≠ [] := by
  rw [jsDigitChars]
  split <;> simp

/-- Every character of a decimal rendering is a decimal digit. -/
theorem jsDigitChars_all_digits (n : Nat) :
    ∀ c ∈ jsDigitChars n, c.isDigit = true := by
  induction n using Nat.strong_induction_on with
  | _ n ih =>
    rw [jsDigitChars]
    split
    · rename_i h
      intro c hc
      rw [List.mem_singleton] at hc
      subst hc
      exact digitChar_isDigit n h
    · rename_i h
      intro c hc
      rw [List.mem_append] at hc
      rcases hc with hc | hc
      · exact ih (n / 10)
          (Nat.div_lt_self (Nat.pos_of_ne_zero (by omega)) (by omega)) c hc
      · rw [List.mem_singleton] at hc
        subst hc
        exact digitChar_isDigit (n % 10) (Nat.mod_lt n (by omega))

/-- A value of at least `10 ^ k` renders to at least `k + 1` digits. -/
theorem jsDigitChars_length_ge (k : Nat) :
    ∀ n, 10 ^ k ≤ n → k + 1 ≤ (jsDigitChars n).length := by
  induction k with
  | zero =>
    intro n _
    exact List.length_pos.mpr (jsDigitChars_ne_nil n)
  | succ k ih =>
    intro n h
    have h10 : 10 ≤ n := by
      calc 10 = 10 ^ 1 := by norm_num
      _ ≤ 10 ^ (k + 1) := Nat.pow_le_pow_right (by norm_num) (by omega)
      _ ≤ n := h
    rw [jsDigitChars, dif_neg (by omega), List.length_append,
      List.length_singleton]
    have hdiv : 10 ^ k ≤ n / 10 := by
      rw [Nat.le_div_iff_mul_le (by norm_num)]
      calc 10 ^ k * 10 = 10 ^ (k + 1) := (pow_succ 10 k).symm
      _ ≤ n := h
    have := ih (n / 10) hdiv
    omega

/-- C5 (amended): when the five-step production animation completes,
`showFinalProduct` reveals the product card (`show` class set) with a
tracking number matching `TRK-########` — the literal `TRK-` followed by
exactly 8 decimal digits — for every clock value `Date.now()` of at least
`10^7` ms (every wall-clock instant later than ~2.8 hours past the 1970
epoch, hence every real run). -/
theorem trackingNumber_pattern (nowMs : Nat) (s : AppUIState)
    (h : 10 ^ 7 ≤ nowMs) :
    matchesTRK ((showFinalProduct nowMs s).trackingNumberText) = true ∧
    (showFinalProduct nowMs s).productShow = true := by
  refine ⟨?_, rfl⟩
  show matchesTRK (generateTrackingNumber nowMs) = true
  have hlen : 8 ≤ (jsDigitChars nowMs).length := jsDigitChars_length_ge 7 nowMs h
  have hl8len : (lastChars (jsDigitChars nowMs) 8).length = 8 := by
    unfold lastChars
    rw [List.length_drop]
    omega
  have htoList : (generateTrackingNumber nowMs).toList =
      'T' :: 'R' :: 'K' :: '-' :: lastChars (jsDigitChars nowMs) 8 := rfl
  unfold matchesTRK
  rw [htoList]
  simp only [List.take, List.length_cons, List.drop, Bool.and_eq_true,
    beq_iff_eq, List.all_eq_true]
  refine ⟨⟨trivial, by omega⟩, ?_⟩
  intro c hc
  unfold lastChars at hc
  exact jsDigitChars_all_digits nowMs c (List.mem_of_mem_drop hc)

/-- Witness for C5 (amended) at the concrete clock value 12345678 ms. -/
theorem trackingNumber_pattern_witness :
    matchesTRK ((showFinalProduct 12345678 demoUIState).trackingNumberText) =
      true ∧
    (showFinalProduct 12345678 demoUIState).productShow = true :=
  trackingNumber_pattern 12345678 demoUIState (by decide)

/-- C5 counterexample: the claim quantifies over EVERY time at which
`generateTrackingNumber` runs, but at clock value 0 ms
(`Date.now() = 0`) the rendered string is `TRK-0` — `slice(-8)` keeps the
whole 1-character string — which does not match `TRK-########`. -/
theorem trackingNumber_pattern_counterexample :
    matchesTRK (generateTrackingNumber 0) = false := by
  have h0 : jsDigitChars 0 = ['0'] := by
    rw [jsDigitChars]
    norm_num
    decide
  have h1 : generateTrackingNumber 0 = "TRK-" ++ String.mk ['0'] := by
    unfold generateTrackingNumber
    rw [h0]
    rfl
  rw [h1]
  decide
